import Mathlib

/-!
Verification of the peloton goal-state / host-offer specification against the
repository.  The implementation files for the job runtime updater
(`pkg/jobmgr/goalstate/job_runtime_updater.go`), the host summary
(`pkg/hostmgr/summary/summary.go`) and recovery
(`pkg/common/recovery/recovery.go`) are not part of the source tree; only
their test files are.  The definitions below are therefore modelled from the
specification, with every branch outcome cross-checked against the concrete
expectations of the in-tree test files
(`job_runtime_updater_test.go`, `summary_test.go` content of
`src/unnamed/part_001`, `recovery_test.go`).  Where a test pins a behaviour
that differs from a sentence of the specification, the model follows the
test (the tests are the only authoritative code present) and the deviation
is recorded with the corresponding theorem.
-/

namespace Peloton

/-- Task states of the v0 API (`pbtask.TaskState`) that appear in the runtime
updater and its tests. -/
inductive TaskState where
  | INITIALIZED
  | PENDING
  | LAUNCHED
  | STARTING
  | RUNNING
  | KILLING
  | SUCCEEDED
  | FAILED
  | KILLED
  | LOST
  | UNKNOWN
  deriving DecidableEq, Repr, Fintype

/-- Job states of the v0 API (`pbjob.JobState`). -/
inductive JobState where
  | UNKNOWN
  | INITIALIZED
  | PENDING
  | RUNNING
  | SUCCEEDED
  | FAILED
  | KILLING
  | KILLED
  | DELETED
  deriving DecidableEq, Repr, Fintype

/-- Job types (`pbjob.JobType`). -/
inductive JobType where
  | BATCH
  | SERVICE
  deriving DecidableEq, Repr

/-- Modelled from the spec: `util.IsPelotonJobStateTerminal`; SUCCEEDED,
FAILED, KILLED and DELETED are the terminal job states. -/
def isPelotonJobStateTerminal : JobState → Bool
  | .SUCCEEDED => true
  | .FAILED => true
  | .KILLED => true
  | .DELETED => true
  | _ => false

/-- Task-state counts (`stateCounts map[string]uint32`); a missing key of the
Go map reads as zero, so the counts are a total function. -/
def StateCounts : Type := TaskState → Nat

/-- The task states enumerated by the updater (the `allTaskStates` list used
by `job_runtime_updater_test.go`). -/
def allTaskStates : List TaskState :=
  [.INITIALIZED, .PENDING, .LAUNCHED, .STARTING, .RUNNING, .KILLING,
   .SUCCEEDED, .FAILED, .KILLED, .LOST, .UNKNOWN]

/-- `getTotalInstanceCount` of `job_runtime_updater.go` (also used by its
tests): the sum of all per-state counts. -/
def getTotalInstanceCount (stateCounts : StateCounts) : Nat :=
  (allTaskStates.map stateCounts).sum

/-- Job runtime (`pbjob.RuntimeInfo`), restricted to the fields the state
determination reads. -/
structure RuntimeInfo where
  state : JobState
  goalState : JobState
  deriving DecidableEq, Repr

/-- Cached job configuration (`cached.JobConfigCache`), restricted to the
accessors the state determination uses: `GetInstanceCount`, `GetType`,
`HasControllerTask`. -/
structure JobConfig where
  instanceCount : Nat
  jobType : JobType
  hasControllerTask : Bool
  deriving DecidableEq, Repr

/-- The in-process cached job (`cached.Job`), restricted to what the state
determination reads: the `CurrentState` of every cached task
(`GetAllTasks`), the runtime state of instance 0 (the controller task), and
`GetLastTaskUpdateTime` (seconds). -/
structure CachedJob where
  taskStates : List TaskState
  task0State : TaskState
  lastTaskUpdateTime : Nat
  deriving DecidableEq, Repr

/-- The goal-state driver knob read by the updater
(`driver.jobRuntimeCalculationViaCache`). -/
structure Driver where
  jobRuntimeCalculationViaCache : Bool
  deriving DecidableEq, Repr

/-- Number of terminal tasks among the counts. -/
def terminalTaskCount (stateCounts : StateCounts) : Nat :=
  stateCounts .SUCCEEDED + stateCounts .FAILED + stateCounts .LOST +
    stateCounts .KILLED

/-- Modelled from the spec (§4.2 step 2, non-controller rules for a fully
created job): RUNNING wins, then PENDING/INITIALIZED, then KILLING; when all
tasks are terminal, a KILLED task makes the job KILLED, otherwise a FAILED
or LOST task makes it FAILED, otherwise SUCCEEDED.  The precedence of KILLED
over FAILED is pinned by `TestDetermineBatchJobRuntimeState` (counts
FAILED:50/KILLED:50 expect KILLED) and `TestJobRuntimeUpdater_Batch_KILLED`
(FAILED:25/LOST:25/KILLED:25/SUCCEEDED:25 expect KILLED), overriding the
spec sentence that lets FAILED win. -/
def classifyFullyCreated (stateCounts : StateCounts) (config : JobConfig) :
    JobState :=
  if 0 < stateCounts .RUNNING then .RUNNING
  else if 0 < stateCounts .PENDING ∨ 0 < stateCounts .INITIALIZED then .PENDING
  else if 0 < stateCounts .KILLING then .KILLING
  else if terminalTaskCount stateCounts = config.instanceCount then
    if 0 < stateCounts .KILLED then .KILLED
    else if 0 < stateCounts .FAILED + stateCounts .LOST then .FAILED
    else .SUCCEEDED
  else .PENDING

/-- Modelled from the spec: `determineJobRuntimeState` of the missing
`job_runtime_updater.go` (§4.2 step 2).  Branches, in order:
* a partially created job (`sum < instance_count`): INITIALIZED for batch;
  for a service job whose desired goal state is KILLED or DELETED, KILLED if
  any instance is KILLED, FAILED if instances exist but none is KILLED, and
  the current state when no instance exists yet
  (`TestJobStateDeterminer_NoInstancesCreatedServiceJob` expects the current
  state KILLED for empty counts); for any other service job the current
  state;
* more counted tasks than configured (a diverged materialized view): PENDING
  (`TestJobRuntimeUpdater_InitializedJobWithMoreTasksThanConfigured`,
  `TestJobRuntimeUpdater_PendingJobWithMoreTasksThanConfigured` and
  `determineJobRuntimeHelper` with the flag off all expect PENDING);
* a controller-task job whose tasks are all terminal: instance 0 decides
  (SUCCEEDED on SUCCEEDED, FAILED on FAILED or LOST,
  `TestJobRuntimeUpdater_ControllerTask*`), any other instance-0 state falls
  through to the ordinary classification; the controller check waits for all
  tasks to terminate (`TestJobRuntimeUpdater_ControllerTaskRunning`);
* otherwise `classifyFullyCreated`. -/
def determineJobRuntimeState (jobRuntime : RuntimeInfo)
    (stateCounts : StateCounts) (config : JobConfig) (cachedJob : CachedJob) :
    JobState :=
  if getTotalInstanceCount stateCounts < config.instanceCount then
    match config.jobType with
    | .SERVICE =>
      if jobRuntime.goalState = .KILLED ∨ jobRuntime.goalState = .DELETED then
        if 0 < stateCounts .KILLED then .KILLED
        else if 0 < getTotalInstanceCount stateCounts then .FAILED
        else jobRuntime.state
      else jobRuntime.state
    | .BATCH => .INITIALIZED
  else if config.instanceCount < getTotalInstanceCount stateCounts then
    .PENDING
  else if config.hasControllerTask ∧
      terminalTaskCount stateCounts = config.instanceCount then
    match cachedJob.task0State with
    | .SUCCEEDED => .SUCCEEDED
    | .FAILED => .FAILED
    | .LOST => .FAILED
    | _ => classifyFullyCreated stateCounts config
  else classifyFullyCreated stateCounts config

/-- Modelled from the spec: the staleness threshold
(`common.StaleJobStateDurationThreshold`); between the one hour the tests
treat as fresh and the five days they treat as stale.  One day, in
seconds. -/
def staleJobStateDurationThreshold : Nat := 86400

/-- Modelled from the spec: `isJobStateStale`; the last task update is older
than the staleness threshold (timestamps in seconds). -/
def isJobStateStale (cachedJob : CachedJob) (now : Nat) : Bool :=
  staleJobStateDurationThreshold < now - cachedJob.lastTaskUpdateTime

/-- Modelled from the spec: `shouldRecalculateJobStateFromCache`.  A terminal
batch job is never recalculated
(`TestshouldRecalculateJobStateTerminalJob`); a service job always is
(`TestShouldRecalculateJobStateNonBatch`); otherwise recalculation happens
when the job state is stale (`TestShouldRecalculateJobState`) or the
cluster-wide `jobRuntimeCalculationViaCache` flag is on
(`TestShouldRecalculateJobStateFlagOnMVDiverged` and its flag-off
counterpart).  The function does not look at the task-state counts at
all. -/
def shouldRecalculateJobStateFromCache (cachedJob : CachedJob)
    (jobType : JobType) (jobState : JobState)
    (jobRuntimeCalculationViaCache : Bool) (now : Nat) : Bool :=
  if jobType = .BATCH ∧ isPelotonJobStateTerminal jobState then false
  else if jobType = .SERVICE then true
  else if isJobStateStale cachedJob now then true
  else jobRuntimeCalculationViaCache

/-- Per-state counts recomputed from the `CurrentState` of each cached task
(`cachedJob.GetAllTasks()`). -/
def countsFromCache (cachedJob : CachedJob) : StateCounts :=
  fun s => cachedJob.taskStates.count s

/-- Modelled from the spec: `recalculateJobStateAndCountsFromCache`; the
state counts are rebuilt from the in-process task cache and the state is
re-determined from them; if any cached task has UNKNOWN state the cache is
not trusted and the original state and counts are kept
(`TestDetermineJobRuntimeStateStaleJob`). -/
def recalculateJobStateAndCountsFromCache (jobRuntime : RuntimeInfo)
    (stateCounts : StateCounts) (config : JobConfig) (cachedJob : CachedJob)
    (jobState : JobState) : JobState × StateCounts :=
  let cacheCounts := countsFromCache cachedJob
  if 0 < cacheCounts .UNKNOWN then (jobState, stateCounts)
  else (determineJobRuntimeState jobRuntime cacheCounts config cachedJob,
    cacheCounts)

/-- Modelled from the spec: `determineJobRuntimeStateAndCounts` of the
missing `job_runtime_updater.go` (§4.2 step 1): determine the state from the
materialized-view counts, then recompute state and counts from the task
cache exactly when `shouldRecalculateJobStateFromCache` says so. -/
def determineJobRuntimeStateAndCounts (jobRuntime : RuntimeInfo)
    (stateCounts : StateCounts) (config : JobConfig) (driver : Driver)
    (cachedJob : CachedJob) (now : Nat) : JobState × StateCounts :=
  let jobState := determineJobRuntimeState jobRuntime stateCounts config
    cachedJob
  if shouldRecalculateJobStateFromCache cachedJob config.jobType jobState
      driver.jobRuntimeCalculationViaCache now then
    recalculateJobStateAndCountsFromCache jobRuntime stateCounts config
      cachedJob jobState
  else (jobState, stateCounts)

/-! ### Start and completion time (§4.2 step 3) -/

/-- Modelled from the spec: the RFC3339 rendering of a Unix timestamp
(`util.FormatTime`); abstracted to an encoding of the numeric timestamp, the
rendering of any time being a non-empty string. -/
def formatTime (t : Nat) : String := "T" ++ toString t

/-- Modelled from the spec: the completion time persisted by
`JobRuntimeUpdater` (§4.2 step 3): set only when the new state is terminal;
taken from the last task update time when that is non-zero, and from the
current time when the tasks never ran (`TestJobCompletionTimeNotEmpty`);
the empty string means unset (`TestJobRuntimeUpdater_Batch_KILLING`
expects it empty for a non-terminal state). -/
def jobCompletionTime (newState : JobState) (lastTaskUpdateTime now : Nat) :
    String :=
  if isPelotonJobStateTerminal newState then
    if lastTaskUpdateTime ≠ 0 then formatTime lastTaskUpdateTime
    else formatTime now
  else ""

/-! ### Recovery (§4.6) -/

/-- Store fetch outcome kinds distinguished by recovery: a not-found error
versus any other store error (`yarpcerrors.IsNotFound`). -/
inductive StoreError where
  | notFound
  | otherError
  deriving DecidableEq, Repr

/-- What recovery does with one job listed in the active set. -/
inductive RecoveryAction where
  | deleteFromActive
  | skip
  | recover
  deriving DecidableEq, Repr

/-- Modelled from the spec: the per-job decision of `recoverJobsBatch` of the
missing `pkg/common/recovery/recovery.go` (§4.6 steps 2-4).  The job runtime
is fetched first; a not-found error deletes the job from the active set and
any other error skips it without deleting
(`TestRecoveryMissingJobRuntime`, `TestDeleteOnlyOnNotFound`); then the
config, with the same handling (`TestRecoveryMissingJobConfig`); a job whose
runtime state is terminal is deleted only when its type is BATCH
(`TestRecoveryTerminalJobs`); otherwise the job is recovered. -/
def recoverJobDecision (runtimeResult : Except StoreError RuntimeInfo)
    (configResult : Except StoreError JobConfig) : RecoveryAction :=
  match runtimeResult with
  | .error e => if e = .notFound then .deleteFromActive else .skip
  | .ok jobRuntime =>
    match configResult with
    | .error e => if e = .notFound then .deleteFromActive else .skip
    | .ok jobConfig =>
      if isPelotonJobStateTerminal jobRuntime.state ∧
          jobConfig.jobType = .BATCH then .deleteFromActive
      else .recover

/-! ### Host summary (§4.3) -/

/-- Host summary status (`summary.HostStatus`). -/
inductive HostStatus where
  | ReadyHost
  | PlacingHost
  | HeldHost
  | ReservedHost
  deriving DecidableEq, Repr

/-- Resource kinds a filter minimum or a host can carry; DUMMY stands for a
declared scarce-resource name no host resource matches (the `DUMMY_RES` of
`TestScarceResourcesConstraint`). -/
inductive ResourceType where
  | CPU
  | MEM
  | DISK
  | GPU
  | DUMMY
  deriving DecidableEq, Repr

/-- An aggregate of resource quantities (`scalar.Resources`). -/
structure Resources where
  cpu : ℚ
  mem : ℚ
  disk : ℚ
  gpu : ℚ
  deriving DecidableEq, Repr

def Resources.get (r : Resources) : ResourceType → ℚ
  | .CPU => r.cpu
  | .MEM => r.mem
  | .DISK => r.disk
  | .GPU => r.gpu
  | .DUMMY => 0

def Resources.zero : Resources := ⟨0, 0, 0, 0⟩

def Resources.add (a b : Resources) : Resources :=
  ⟨a.cpu + b.cpu, a.mem + b.mem, a.disk + b.disk, a.gpu + b.gpu⟩

/-- `a` fits within `b` component-wise (`scalar.Resources.Contains`). -/
def Resources.containedIn (a b : Resources) : Bool :=
  decide (a.cpu ≤ b.cpu) && decide (a.mem ≤ b.mem) &&
    decide (a.disk ≤ b.disk) && decide (a.gpu ≤ b.gpu)

/-- An unreserved offer held by a host summary, with its non-revocable and
revocable resource amounts and offered ports. -/
structure Offer where
  offerID : String
  resources : Resources
  revocableResources : Resources
  ports : Nat
  deriving DecidableEq, Repr

/-- A host filter (`hostsvc.HostFilter`), restricted to the fields the match
reads: the resource minimum, ports wanted, the revocable flag, and the
host-hint. -/
structure HostFilter where
  minimum : Resources
  numPorts : Nat
  revocable : Bool
  hintHostname : Option String
  deriving DecidableEq, Repr

/-- Outcome of evaluating the optional scheduling constraint against the
host labels (`constraints.Evaluator.Evaluate`); `EFailed` stands for an
evaluation error. -/
inductive EvaluateResult where
  | EMatch
  | EMismatch
  | ENotApplicable
  | EFailed
  deriving DecidableEq, Repr

/-- Results of a host-filter match (`hostsvc.HostFilterResult`). -/
inductive HostFilterResult where
  | MATCH
  | INSUFFICIENT_OFFER_RESOURCES
  | MISMATCH_CONSTRAINTS
  | SCARCE_RESOURCES
  | MISMATCH_STATUS
  | NO_OFFER
  deriving DecidableEq, Repr

/-- Aggregate unreserved resources of the offers, honouring the
revocable/non-revocable separation (§4.3 rule 5): a revocable filter is
served from the revocable amounts, a non-revocable one only from the
non-revocable amounts. -/
def aggregateResources (offers : List Offer) (revocable : Bool) : Resources :=
  offers.foldr
    (fun o acc =>
      Resources.add (if revocable then o.revocableResources else o.resources)
        acc)
    Resources.zero

def aggregatePorts (offers : List Offer) : Nat :=
  (offers.map Offer.ports).sum

/-- The offered resources satisfy the filter minimum and ports demand. -/
def hasSufficientResources (offers : List Offer) (filter : HostFilter) :
    Bool :=
  filter.minimum.containedIn (aggregateResources offers filter.revocable) &&
    decide (filter.numPorts ≤ aggregatePorts offers)

/-- The host possesses a declared scarce resource the filter minimum does not
ask for (§4.3 rule 3: scarce hosts are exclusive to scarce demand). -/
def hasScarceConflict (agentResources : Resources) (filter : HostFilter)
    (scarceResourceTypes : List ResourceType) : Bool :=
  scarceResourceTypes.any fun rt =>
    decide (0 < agentResources.get rt) && decide (filter.minimum.get rt = 0)

/-- Modelled from the spec: `matchHostFilter` of the missing
`pkg/hostmgr/summary/summary.go` (§4.3 TryMatch rules 3-5), exercised
directly by `TestScarceResourcesConstraint`: empty offers give NO_OFFER;
then the scarce-resource exclusivity check; then the scheduling constraint
(a mismatch or an evaluation error both give MISMATCH_CONSTRAINTS,
`TestTryMatchSchedulingConstraint`); then the resource comparison. -/
def matchHostFilter (offers : List Offer) (filter : HostFilter)
    (evaluateRes : Option EvaluateResult) (agentResources : Resources)
    (scarceResourceTypes : List ResourceType) : HostFilterResult :=
  if offers.isEmpty then .NO_OFFER
  else if hasScarceConflict agentResources filter scarceResourceTypes then
    .SCARCE_RESOURCES
  else
    match evaluateRes with
    | some .EMismatch => .MISMATCH_CONSTRAINTS
    | some .EFailed => .MISMATCH_CONSTRAINTS
    | _ =>
      if hasSufficientResources offers filter then .MATCH
      else .INSUFFICIENT_OFFER_RESOURCES

/-- The empty host-offer id a Ready or Held summary carries. -/
def emptyOfferID : String := ""

/-- The per-host summary (`hostSummary`), restricted to the fields its state
machine reads and writes. -/
structure HostSummary where
  hostname : String
  status : HostStatus
  unreservedOffers : List Offer
  hostOfferID : String
  readyCount : Nat
  heldTasks : List String
  placingExpiration : Nat
  placingTimeout : Nat
  agentResources : Resources
  scarceResourceTypes : List ResourceType
  deriving DecidableEq, Repr

/-- Modelled from the spec: `TryMatch` of the missing `summary.go` (§4.3).
A host matches only in Ready status, or in Held status when the filter hint
names this host (`TestTryMatchHostOnHeld`); any other status, in particular
Placing whether or not offers remain, answers MISMATCH_STATUS without
consulting the constraint evaluator (`TestTryMatchSchedulingConstraint`).
On MATCH the host atomically moves to Placing with a fresh host-offer id, a
zero ready count and expiration `now + placing_timeout` (§4.3 rule 6); any
non-MATCH outcome leaves the summary untouched. -/
def TryMatch (s : HostSummary) (filter : HostFilter)
    (evaluateRes : Option EvaluateResult) (newOfferID : String) (now : Nat) :
    HostSummary × HostFilterResult :=
  if s.status = .ReadyHost ∨
      (s.status = .HeldHost ∧ filter.hintHostname = some s.hostname) then
    match matchHostFilter s.unreservedOffers filter evaluateRes
        s.agentResources s.scarceResourceTypes with
    | .MATCH =>
      ({ s with
          status := .PlacingHost
          hostOfferID := newOfferID
          readyCount := 0
          placingExpiration := now + s.placingTimeout },
        .MATCH)
    | r => (s, r)
  else (s, .MISMATCH_STATUS)

/-- Modelled from the spec: `ClaimForLaunch` of the missing `summary.go`
(§4.3), behaviour pinned by `TestClaimForUnreservedOffersForLaunch`:
accepted only in Placing status (error "host status is not Placing") with
the matching host-offer id (error "host offer id does not match"), a
mismatch leaving the summary untouched; on success the unreserved offers
are consumed, the claimed tasks leave the held set, and the host moves to
Held when a held task was not among the claimed ones, else to Ready. -/
def ClaimForLaunch (s : HostSummary) (hostOfferID : String)
    (taskIDs : List String) : HostSummary × Except String (List Offer) :=
  if s.status ≠ .PlacingHost then (s, .error "host status is not Placing")
  else if s.hostOfferID ≠ hostOfferID then
    (s, .error "host offer id does not match")
  else
    let remainingHeld := s.heldTasks.filter fun t => t ∉ taskIDs
    ({ s with
        status := if remainingHeld.isEmpty then HostStatus.ReadyHost
          else HostStatus.HeldHost
        unreservedOffers := []
        readyCount := 0
        hostOfferID := emptyOfferID
        heldTasks := remainingHeld },
      .ok s.unreservedOffers)

/-- Modelled from the spec: `ResetExpiredPlacingOfferStatus` of the missing
`summary.go` (§4.3 Expiry), behaviour pinned by
`TestResetExpiredPlacingOfferStatus`: when the status is Placing and the
placing expiration has elapsed, the host reverts to Ready (Held when tasks
are held), the host-offer id is cleared and the ready count is restored to
the number of unreserved offers; otherwise nothing changes.  Returns the
updated summary and whether a reset happened. -/
def ResetExpiredPlacingOfferStatus (s : HostSummary) (now : Nat) :
    HostSummary × Bool :=
  if s.status = .PlacingHost ∧ s.placingExpiration < now then
    ({ s with
        status := if s.heldTasks.isEmpty then HostStatus.ReadyHost
          else HostStatus.HeldHost
        hostOfferID := emptyOfferID
        readyCount := s.unreservedOffers.length },
      true)
  else (s, false)

/-! ## Claims

Each claim of the specification review is settled by the theorems below.
All of them are about the definitions above, which model the source files
missing from the tree, pinned by the in-tree tests. -/

/-- C1 inputs: a fully created 100-instance batch job whose tasks are
FAILED:50, KILLED:50 (the row of `TestDetermineBatchJobRuntimeState`
expecting KILLED). -/
def c1counts : StateCounts := fun s =>
  match s with
  | .FAILED => 50
  | .KILLED => 50
  | _ => 0

def c1config : JobConfig := ⟨100, .BATCH, false⟩

def c1runtime : RuntimeInfo := ⟨.PENDING, .SUCCEEDED⟩

def c1cachedJob : CachedJob := ⟨[], .UNKNOWN, 0⟩

/-- C1: counterexample.  For the fully created job whose tasks are exactly
FAILED:50 and KILLED:50 the claim predicts FAILED ("any FAILED or LOST task
makes the job FAILED"); the updater, as pinned by
`TestDetermineBatchJobRuntimeState` ("Batch job with terminated with killed
task should be KILLED") and `TestJobRuntimeUpdater_Batch_KILLED`, computes
KILLED. -/
theorem C1_counterexample :
    getTotalInstanceCount c1counts = c1config.instanceCount ∧
    (∀ t : TaskState, t ≠ .FAILED → t ≠ .KILLED → c1counts t = 0) ∧
    0 < c1counts .FAILED ∧ 0 < c1counts .KILLED ∧
    determineJobRuntimeState c1runtime c1counts c1config c1cachedJob =
      .KILLED ∧
    determineJobRuntimeState c1runtime c1counts c1config c1cachedJob ≠
      .FAILED := by
  decide

/-- C1 (amended): for a fully created job without a controller task whose
tasks are all terminal, any KILLED task makes the job KILLED, and only
otherwise does any FAILED or LOST task make it FAILED. -/
theorem C1_terminal_classification (stateCounts : StateCounts)
    (jobRuntime : RuntimeInfo) (config : JobConfig) (cachedJob : CachedJob)
    (hctrl : config.hasControllerTask = false)
    (hz : ∀ t : TaskState, t ≠ .SUCCEEDED → t ≠ .FAILED → t ≠ .LOST →
      t ≠ .KILLED → stateCounts t = 0)
    (hsum : getTotalInstanceCount stateCounts = config.instanceCount) :
    (0 < stateCounts .KILLED →
      determineJobRuntimeState jobRuntime stateCounts config cachedJob =
        .KILLED) ∧
    (stateCounts .KILLED = 0 → 0 < stateCounts .FAILED + stateCounts .LOST →
      determineJobRuntimeState jobRuntime stateCounts config cachedJob =
        .FAILED) := by
  have hI := hz .INITIALIZED (by decide) (by decide) (by decide) (by decide)
  have hP := hz .PENDING (by decide) (by decide) (by decide) (by decide)
  have hLn := hz .LAUNCHED (by decide) (by decide) (by decide) (by decide)
  have hSt := hz .STARTING (by decide) (by decide) (by decide) (by decide)
  have hR := hz .RUNNING (by decide) (by decide) (by decide) (by decide)
  have hKg := hz .KILLING (by decide) (by decide) (by decide) (by decide)
  have hU := hz .UNKNOWN (by decide) (by decide) (by decide) (by decide)
  have hexp : getTotalInstanceCount stateCounts =
      stateCounts .INITIALIZED + (stateCounts .PENDING +
        (stateCounts .LAUNCHED + (stateCounts .STARTING +
          (stateCounts .RUNNING + (stateCounts .KILLING +
            (stateCounts .SUCCEEDED + (stateCounts .FAILED +
              (stateCounts .KILLED + (stateCounts .LOST +
                (stateCounts .UNKNOWN + 0)))))))))) := rfl
  have htermEq : terminalTaskCount stateCounts =
      stateCounts .SUCCEEDED + stateCounts .FAILED + stateCounts .LOST +
        stateCounts .KILLED := rfl
  have h1 : ¬ (getTotalInstanceCount stateCounts < config.instanceCount) := by
    omega
  have h2 : ¬ (config.instanceCount < getTotalInstanceCount stateCounts) := by
    omega
  have hterm : terminalTaskCount stateCounts = config.instanceCount := by
    omega
  constructor
  · intro hKpos
    unfold determineJobRuntimeState
    rw [if_neg h1, if_neg h2, if_neg (by simp [hctrl])]
    unfold classifyFullyCreated
    rw [if_neg (by omega), if_neg (by omega), if_neg (by omega),
      if_pos hterm, if_pos hKpos]
  · intro hK0 hFL
    unfold determineJobRuntimeState
    rw [if_neg h1, if_neg h2, if_neg (by simp [hctrl])]
    unfold classifyFullyCreated
    rw [if_neg (by omega), if_neg (by omega), if_neg (by omega),
      if_pos hterm, if_neg (by omega), if_pos hFL]

/-- C1 witness: the amended theorem evaluated on the concrete FAILED:50 /
KILLED:50 job. -/
theorem C1_witness :
    determineJobRuntimeState c1runtime c1counts c1config c1cachedJob =
      .KILLED :=
  (C1_terminal_classification c1counts c1runtime c1config c1cachedJob rfl
    (by decide) (by decide)).1 (by decide)

/-- C2 inputs: a fully created 100-instance batch job with all tasks
SUCCEEDED and current state PENDING. -/
def c2counts : StateCounts := fun s =>
  match s with
  | .SUCCEEDED => 100
  | _ => 0

def c2config : JobConfig := ⟨100, .BATCH, false⟩

def c2runtime : RuntimeInfo := ⟨.PENDING, .SUCCEEDED⟩

def c2cachedJob : CachedJob := ⟨[], .UNKNOWN, 0⟩

/-- C2: counterexample.  With `sum(task_stats) = instance_count` (which the
claim admits, demanding only `sum ≤ instance_count`) the computed state is
the terminal SUCCEEDED, not INITIALIZED, PENDING or the current state. -/
theorem C2_counterexample :
    getTotalInstanceCount c2counts ≤ c2config.instanceCount ∧
    determineJobRuntimeState c2runtime c2counts c2config c2cachedJob =
      .SUCCEEDED ∧
    isPelotonJobStateTerminal
      (determineJobRuntimeState c2runtime c2counts c2config c2cachedJob) =
      true ∧
    determineJobRuntimeState c2runtime c2counts c2config c2cachedJob ≠
      .INITIALIZED ∧
    determineJobRuntimeState c2runtime c2counts c2config c2cachedJob ≠
      c2runtime.state := by
  decide

/-- C2 (amended): when the counts sum to strictly less than the configured
instance count, a batch job is computed INITIALIZED and a service job whose
desired goal state is neither KILLED nor DELETED keeps its current state —
in both cases a state in {INITIALIZED, PENDING, current}.  (At `sum =
instance_count` terminal states are reachable, and a partially created
service job with desired goal KILLED or DELETED may be classified KILLED or
FAILED.) -/
theorem C2_not_terminal_when_below_count (stateCounts : StateCounts)
    (jobRuntime : RuntimeInfo) (config : JobConfig) (cachedJob : CachedJob)
    (hlt : getTotalInstanceCount stateCounts < config.instanceCount) :
    (config.jobType = .BATCH →
      determineJobRuntimeState jobRuntime stateCounts config cachedJob =
        .INITIALIZED) ∧
    (config.jobType = .SERVICE → jobRuntime.goalState ≠ .KILLED →
      jobRuntime.goalState ≠ .DELETED →
      determineJobRuntimeState jobRuntime stateCounts config cachedJob =
        jobRuntime.state) := by
  constructor
  · intro hb
    unfold determineJobRuntimeState
    rw [if_pos hlt, hb]
  · intro hs hk hd
    unfold determineJobRuntimeState
    rw [if_pos hlt, hs]
    simp only []
    rw [if_neg (by rintro (h | h) <;> [exact hk h; exact hd h])]

/-- C2 witness inputs: the partially created counts FAILED:49, KILLED:49 of
100 (the last row of `TestDetermineBatchJobRuntimeState`). -/
def c2partialCounts : StateCounts := fun s =>
  match s with
  | .FAILED => 49
  | .KILLED => 49
  | _ => 0

/-- C2 witness: the amended theorem at the concrete partially created batch
job. -/
theorem C2_witness :
    determineJobRuntimeState c2runtime c2partialCounts c2config c2cachedJob =
      .INITIALIZED :=
  (C2_not_terminal_when_below_count c2partialCounts c2runtime c2config
    c2cachedJob (by decide)).1 rfl

/-- C3 inputs: the `determineJobRuntimeHelper(false)` scenario — a batch job
with 10 configured instances whose materialized view reports KILLING:10 and
KILLED:10 (sum 20 > 10, diverged) while the task cache holds 10 KILLED
tasks, with a recent last task update and the recalculation flag off. -/
def c3counts : StateCounts := fun s =>
  match s with
  | .KILLING => 10
  | .KILLED => 10
  | _ => 0

def c3config : JobConfig := ⟨10, .BATCH, false⟩

def c3runtime : RuntimeInfo := ⟨.KILLED, .KILLED⟩

def c3cachedJob : CachedJob := ⟨List.replicate 10 .KILLED, .KILLED, 1000⟩

def c3driver : Driver := ⟨false⟩

def c3now : Nat := 1500

/-- C3: counterexample.  The materialized-view counts sum above the
configured instance count, yet with the recalculation flag off and a recent
last update the updater does not recompute from the cache: the counts it
uses still say KILLING:10 where the cache says 0, and the recalculation
predicate is false (`TestShouldRecalculateJobStateFlagOffMVDiverged`,
`determineJobRuntimeHelper(false)`).  MV divergence alone therefore does
not suffice to trigger the recomputation. -/
theorem C3_counterexample :
    c3config.instanceCount < getTotalInstanceCount c3counts ∧
    shouldRecalculateJobStateFromCache c3cachedJob c3config.jobType
      (determineJobRuntimeState c3runtime c3counts c3config c3cachedJob)
      c3driver.jobRuntimeCalculationViaCache c3now = false ∧
    (determineJobRuntimeStateAndCounts c3runtime c3counts c3config c3driver
      c3cachedJob c3now).2 .KILLING = 10 ∧
    countsFromCache c3cachedJob .KILLING = 0 := by
  decide

/-- C3 (amended): the recalculation predicate never looks at the counts, so
MV divergence alone does not trigger recomputation.  For a batch job with a
diverged MV (sum > instance_count) the state determined from the MV counts
is PENDING — a non-terminal state — so the recomputation happens exactly
when the job state is stale or the cluster-wide recalculation flag is on;
when neither holds, the diverged MV counts are used unchanged. -/
theorem C3_recalculation_trigger (stateCounts : StateCounts)
    (jobRuntime : RuntimeInfo) (config : JobConfig) (driver : Driver)
    (cachedJob : CachedJob) (now : Nat)
    (hbatch : config.jobType = .BATCH)
    (hdiv : config.instanceCount < getTotalInstanceCount stateCounts) :
    determineJobRuntimeState jobRuntime stateCounts config cachedJob =
      .PENDING ∧
    shouldRecalculateJobStateFromCache cachedJob config.jobType .PENDING
      driver.jobRuntimeCalculationViaCache now =
      (isJobStateStale cachedJob now || driver.jobRuntimeCalculationViaCache) ∧
    (isJobStateStale cachedJob now = false →
      driver.jobRuntimeCalculationViaCache = false →
      determineJobRuntimeStateAndCounts jobRuntime stateCounts config driver
        cachedJob now = (.PENDING, stateCounts)) := by
  have hstate : determineJobRuntimeState jobRuntime stateCounts config
      cachedJob = .PENDING := by
    unfold determineJobRuntimeState
    rw [if_neg (by omega), if_pos hdiv]
  have hpredicate : shouldRecalculateJobStateFromCache cachedJob
      config.jobType .PENDING driver.jobRuntimeCalculationViaCache now =
      (isJobStateStale cachedJob now ||
        driver.jobRuntimeCalculationViaCache) := by
    unfold shouldRecalculateJobStateFromCache
    rw [hbatch]
    simp only [isPelotonJobStateTerminal]
    cases hst : isJobStateStale cachedJob now <;> simp [hst]
  refine ⟨hstate, hpredicate, ?_⟩
  intro hfresh hflag
  have hcond : shouldRecalculateJobStateFromCache cachedJob config.jobType
      .PENDING driver.jobRuntimeCalculationViaCache now = false := by
    rw [hpredicate, hfresh, hflag]
    rfl
  unfold determineJobRuntimeStateAndCounts
  simp only [hstate, hcond, Bool.false_eq_true, if_false]

/-- C3 witness: the amended theorem evaluated on the concrete diverged
scenario. -/
theorem C3_witness :
    determineJobRuntimeStateAndCounts c3runtime c3counts c3config c3driver
      c3cachedJob c3now = (.PENDING, c3counts) :=
  (C3_recalculation_trigger c3counts c3runtime c3config c3driver c3cachedJob
    c3now rfl (by decide)).2.2 (by decide) rfl

/-- C4 inputs: a 100-instance service job with no instances created yet
(all counts zero), current state PENDING and desired goal state DELETED. -/
def c4counts : StateCounts := fun _ => 0

def c4config : JobConfig := ⟨100, .SERVICE, false⟩

def c4runtime : RuntimeInfo := ⟨.PENDING, .DELETED⟩

def c4cachedJob : CachedJob := ⟨[], .UNKNOWN, 0⟩

/-- C4: counterexample.  A partially created service job with desired goal
state DELETED and no instance in KILLED state is, per the claim, computed
FAILED; but with no instances created at all the updater keeps the current
state (`TestJobStateDeterminer_NoInstancesCreatedServiceJob` expects the
current state, there KILLED, not FAILED), here PENDING. -/
theorem C4_counterexample :
    getTotalInstanceCount c4counts < c4config.instanceCount ∧
    c4config.jobType = .SERVICE ∧
    c4runtime.goalState = .DELETED ∧
    c4counts .KILLED = 0 ∧
    determineJobRuntimeState c4runtime c4counts c4config c4cachedJob =
      .PENDING ∧
    determineJobRuntimeState c4runtime c4counts c4config c4cachedJob ≠
      .FAILED := by
  decide

/-- C4 (amended): for a partially created service job whose desired goal
state is KILLED or DELETED, the computed state is KILLED when at least one
instance is KILLED, FAILED when instances exist but none is KILLED, and the
current state when no instance exists yet; with any other desired goal
state the computed state is the current state. -/
theorem C4_partial_service_goal_state (stateCounts : StateCounts)
    (jobRuntime : RuntimeInfo) (config : JobConfig) (cachedJob : CachedJob)
    (hsvc : config.jobType = .SERVICE)
    (hlt : getTotalInstanceCount stateCounts < config.instanceCount) :
    (jobRuntime.goalState = .KILLED ∨ jobRuntime.goalState = .DELETED →
      (0 < stateCounts .KILLED →
        determineJobRuntimeState jobRuntime stateCounts config cachedJob =
          .KILLED) ∧
      (stateCounts .KILLED = 0 → 0 < getTotalInstanceCount stateCounts →
        determineJobRuntimeState jobRuntime stateCounts config cachedJob =
          .FAILED) ∧
      (getTotalInstanceCount stateCounts = 0 →
        determineJobRuntimeState jobRuntime stateCounts config cachedJob =
          jobRuntime.state)) ∧
    (jobRuntime.goalState ≠ .KILLED → jobRuntime.goalState ≠ .DELETED →
      determineJobRuntimeState jobRuntime stateCounts config cachedJob =
        jobRuntime.state) := by
  constructor
  · intro hgoal
    refine ⟨fun hk => ?_, fun hk0 hpos => ?_, fun h0 => ?_⟩
    · unfold determineJobRuntimeState
      rw [if_pos hlt, hsvc]
      simp only []
      rw [if_pos hgoal, if_pos hk]
    · unfold determineJobRuntimeState
      rw [if_pos hlt, hsvc]
      simp only []
      rw [if_pos hgoal, if_neg (by omega), if_pos hpos]
    · unfold determineJobRuntimeState
      rw [if_pos hlt, hsvc]
      simp only []
      have hexp : getTotalInstanceCount stateCounts =
          stateCounts .INITIALIZED + (stateCounts .PENDING +
            (stateCounts .LAUNCHED + (stateCounts .STARTING +
              (stateCounts .RUNNING + (stateCounts .KILLING +
                (stateCounts .SUCCEEDED + (stateCounts .FAILED +
                  (stateCounts .KILLED + (stateCounts .LOST +
                    (stateCounts .UNKNOWN + 0)))))))))) := rfl
      rw [if_pos hgoal, if_neg (by omega), if_neg (by omega)]
  · intro hk hd
    unfold determineJobRuntimeState
    rw [if_pos hlt, hsvc]
    simp only []
    rw [if_neg (by rintro (h | h) <;> [exact hk h; exact hd h])]

/-- C4 witness inputs: the concrete LOST:33/FAILED:33/KILLED:33 partially
created service job with desired goal KILLED
(`TestJobStateDeterminer_PartiallyCreatedServiceJob`). -/
def c4killedCounts : StateCounts := fun s =>
  match s with
  | .LOST => 33
  | .FAILED => 33
  | .KILLED => 33
  | _ => 0

/-- C4 witness: the amended theorem at the concrete partially created
service job with a KILLED instance and desired goal KILLED. -/
theorem C4_witness :
    determineJobRuntimeState ⟨.PENDING, .KILLED⟩ c4killedCounts c4config
      c4cachedJob = .KILLED :=
  ((C4_partial_service_goal_state c4killedCounts ⟨.PENDING, .KILLED⟩ c4config
    c4cachedJob rfl (by decide)).1 (Or.inl rfl)).1 (by decide)

/-- The held set, after the claimed tasks leave it, is empty exactly when no
held task was left out of the claimed ones. -/
theorem remainingHeld_empty_iff (held taskIDs : List String) :
    ((held.filter fun t => t ∉ taskIDs).isEmpty = true) ↔
      ¬ ∃ t ∈ held, t ∉ taskIDs := by
  simp [List.isEmpty_iff, List.filter_eq_nil_iff]

/-- C5: `ClaimForLaunch` succeeds exactly when the host status is Placing and
the supplied host-offer id matches; any mismatch is an error that leaves the
summary untouched; success consumes the unreserved offers and moves the host
to Held exactly when some held task was not among the claimed tasks, else to
Ready. -/
theorem C5_claim_for_launch (s : HostSummary) (hostOfferID : String)
    (taskIDs : List String) :
    ((∃ offers, (ClaimForLaunch s hostOfferID taskIDs).2 = .ok offers) ↔
      s.status = .PlacingHost ∧ s.hostOfferID = hostOfferID) ∧
    (¬ (s.status = .PlacingHost ∧ s.hostOfferID = hostOfferID) →
      (ClaimForLaunch s hostOfferID taskIDs).1 = s) ∧
    (s.status = .PlacingHost → s.hostOfferID = hostOfferID →
      (ClaimForLaunch s hostOfferID taskIDs).2 = .ok s.unreservedOffers ∧
      (ClaimForLaunch s hostOfferID taskIDs).1.unreservedOffers = [] ∧
      ((ClaimForLaunch s hostOfferID taskIDs).1.status = .HeldHost ↔
        ∃ t ∈ s.heldTasks, t ∉ taskIDs) ∧
      ((ClaimForLaunch s hostOfferID taskIDs).1.status = .ReadyHost ↔
        ¬ ∃ t ∈ s.heldTasks, t ∉ taskIDs)) := by
  by_cases hst : s.status = .PlacingHost
  · by_cases hid : s.hostOfferID = hostOfferID
    · have hrun : ClaimForLaunch s hostOfferID taskIDs =
          ({ s with
              status :=
                if (s.heldTasks.filter fun t => t ∉ taskIDs).isEmpty then
                  HostStatus.ReadyHost
                else HostStatus.HeldHost
              unreservedOffers := []
              readyCount := 0
              hostOfferID := emptyOfferID
              heldTasks := s.heldTasks.filter fun t => t ∉ taskIDs },
            .ok s.unreservedOffers) := by
        unfold ClaimForLaunch
        rw [if_neg (by simp [hst]), if_neg (by simp [hid])]
      refine ⟨⟨fun _ => ⟨hst, hid⟩, fun _ => ⟨s.unreservedOffers, by
        rw [hrun]⟩⟩, fun hcontra => absurd ⟨hst, hid⟩ hcontra,
        fun _ _ => ⟨by rw [hrun], by rw [hrun], ?_, ?_⟩⟩
      · rw [hrun]
        by_cases hemp : (s.heldTasks.filter fun t => t ∉ taskIDs).isEmpty
        · simp only [hemp, if_true]
          simpa using (remainingHeld_empty_iff s.heldTasks taskIDs).mp hemp
        · simp only [hemp, if_false]
          simp only [Bool.not_eq_true] at hemp
          constructor
          · intro _
            by_contra hnone
            rw [← remainingHeld_empty_iff s.heldTasks taskIDs] at hnone
            rw [hnone] at hemp
            exact absurd hemp (by decide)
          · intro _
            rfl
      · rw [hrun]
        by_cases hemp : (s.heldTasks.filter fun t => t ∉ taskIDs).isEmpty
        · simp only [hemp, if_true]
          simpa using (remainingHeld_empty_iff s.heldTasks taskIDs).mp hemp
        · simp only [hemp, if_false]
          simp only [Bool.not_eq_true] at hemp
          constructor
          · intro h
            exact absurd h (by decide)
          · intro hnone
            rw [← remainingHeld_empty_iff s.heldTasks taskIDs] at hnone
            rw [hnone] at hemp
            exact absurd hemp (by decide)
    · have herr : ClaimForLaunch s hostOfferID taskIDs =
          (s, .error "host offer id does not match") := by
        unfold ClaimForLaunch
        rw [if_neg (by simp [hst]), if_pos hid]
      refine ⟨⟨fun ⟨offers, hoffers⟩ => ?_, fun ⟨_, hid2⟩ => absurd hid2 hid⟩,
        fun _ => by rw [herr], fun _ hid2 => absurd hid2 hid⟩
      rw [herr] at hoffers
      exact absurd hoffers (by simp)
  · have herr : ClaimForLaunch s hostOfferID taskIDs =
        (s, .error "host status is not Placing") := by
      unfold ClaimForLaunch
      rw [if_pos hst]
    refine ⟨⟨fun ⟨offers, hoffers⟩ => ?_, fun ⟨hst2, _⟩ => absurd hst2 hst⟩,
      fun _ => by rw [herr], fun hst2 _ => absurd hst2 hst⟩
    rw [herr] at hoffers
    exact absurd hoffers (by simp)

/-- C5 witness inputs: a Placing host with offer id "oid-0", one unreserved
offer, tasks t1 and t2 held, claiming only t1 (the "not all tasks are
claimed" row of `TestClaimForUnreservedOffersForLaunch`). -/
def c5offer : Offer := ⟨"offer-1", ⟨1, 1, 1, 0⟩, ⟨1, 0, 0, 0⟩, 2⟩

def c5summary : HostSummary :=
  ⟨"host-5", .PlacingHost, [c5offer], "oid-0", 0, ["t1", "t2"], 60, 30,
    ⟨5, 5, 5, 0⟩, []⟩

/-- C5 witness: the theorem evaluated on the concrete Placing host; claiming
t1 of held {t1, t2} succeeds and moves the host to Held. -/
theorem C5_witness :
    (ClaimForLaunch c5summary "oid-0" ["t1"]).2 =
      .ok c5summary.unreservedOffers ∧
    (ClaimForLaunch c5summary "oid-0" ["t1"]).1.status = .HeldHost := by
  refine ⟨((C5_claim_for_launch c5summary "oid-0" ["t1"]).2.2 rfl rfl).1, ?_⟩
  exact ((C5_claim_for_launch c5summary "oid-0" ["t1"]).2.2 rfl
    rfl).2.2.1.mpr ⟨"t2", by decide, by decide⟩

/-- C6: the expiry sweep resets a Placing host whose placing expiration has
elapsed — back to Ready, or Held when tasks are held, with an empty
host-offer id and the ready count restored to the number of unreserved
offers — and does nothing otherwise. -/
theorem C6_reset_expired_placing (s : HostSummary) (now : Nat) :
    (s.status = .PlacingHost → s.placingExpiration < now →
      (ResetExpiredPlacingOfferStatus s now).2 = true ∧
      (ResetExpiredPlacingOfferStatus s now).1.hostOfferID = emptyOfferID ∧
      (ResetExpiredPlacingOfferStatus s now).1.readyCount =
        s.unreservedOffers.length ∧
      ((ResetExpiredPlacingOfferStatus s now).1.status = .ReadyHost ↔
        s.heldTasks = []) ∧
      ((ResetExpiredPlacingOfferStatus s now).1.status = .HeldHost ↔
        s.heldTasks ≠ [])) ∧
    (¬ (s.status = .PlacingHost ∧ s.placingExpiration < now) →
      ResetExpiredPlacingOfferStatus s now = (s, false)) := by
  constructor
  · intro hst hexp
    have hrun : ResetExpiredPlacingOfferStatus s now =
        ({ s with
            status := if s.heldTasks.isEmpty then HostStatus.ReadyHost
              else HostStatus.HeldHost
            hostOfferID := emptyOfferID
            readyCount := s.unreservedOffers.length },
          true) := by
      unfold ResetExpiredPlacingOfferStatus
      rw [if_pos ⟨hst, hexp⟩]
    refine ⟨by rw [hrun], by rw [hrun], by rw [hrun], ?_, ?_⟩
    · rw [hrun]
      by_cases hemp : s.heldTasks.isEmpty
      · simp only [hemp, if_true]
        simpa [List.isEmpty_iff] using hemp
      · simp only [hemp, if_false]
        constructor
        · intro h
          exact absurd h (by decide)
        · intro hne
          exact absurd ((List.isEmpty_iff).mpr hne) (by simp [hemp])
    · rw [hrun]
      by_cases hemp : s.heldTasks.isEmpty
      · simp only [hemp, if_true]
        constructor
        · intro h
          exact absurd h (by decide)
        · intro hne
          exact absurd ((List.isEmpty_iff).mp hemp) hne
      · simp only [hemp, if_false]
        constructor
        · intro _ hnil
          exact hemp ((List.isEmpty_iff).mpr hnil)
        · intro _
          rfl
  · intro hcontra
    unfold ResetExpiredPlacingOfferStatus
    rw [if_neg hcontra]

/-- C6 witness inputs: a Placing host with one unreserved offer, no held
tasks and expiration 60, swept at time 70
(`TestResetExpiredPlacingOfferStatus`, timed-out row). -/
def c6summary : HostSummary :=
  ⟨"host-6", .PlacingHost, [⟨"offer-6", ⟨1, 1, 1, 0⟩, ⟨1, 0, 0, 0⟩, 2⟩],
    "oid-6", 0, [], 60, 30, ⟨5, 5, 5, 0⟩, []⟩

/-- C6 witness: the theorem evaluated on the expired Placing host: reset
happens, the host-offer id is cleared, the ready count is restored to the
single unreserved offer, and the status reverts to Ready. -/
theorem C6_witness :
    (ResetExpiredPlacingOfferStatus c6summary 70).2 = true ∧
    (ResetExpiredPlacingOfferStatus c6summary 70).1.hostOfferID =
      emptyOfferID ∧
    (ResetExpiredPlacingOfferStatus c6summary 70).1.readyCount = 1 ∧
    (ResetExpiredPlacingOfferStatus c6summary 70).1.status = .ReadyHost := by
  obtain ⟨h1, h2, h3, h4, _⟩ :=
    (C6_reset_expired_placing c6summary 70).1 rfl (by decide)
  exact ⟨h1, h2, h3, h4.mpr rfl⟩

/-- C7: the scarce-resource exclusivity of the host-filter match.  On a host
with offers, if the host possesses a declared scarce resource the filter
minimum does not ask for, the match answers SCARCE_RESOURCES — regardless of
whether the offered resources would satisfy the minimum; if every scarce
resource the host possesses is demanded by the filter, the match never
answers SCARCE_RESOURCES. -/
theorem C7_scarce_resources (offers : List Offer) (filter : HostFilter)
    (evaluateRes : Option EvaluateResult) (agentResources : Resources)
    (scarceResourceTypes : List ResourceType)
    (hoffers : offers ≠ []) :
    ((∃ rt ∈ scarceResourceTypes, 0 < agentResources.get rt ∧
        filter.minimum.get rt = 0) →
      matchHostFilter offers filter evaluateRes agentResources
        scarceResourceTypes = .SCARCE_RESOURCES) ∧
    ((∀ rt ∈ scarceResourceTypes, 0 < agentResources.get rt →
        filter.minimum.get rt ≠ 0) →
      matchHostFilter offers filter evaluateRes agentResources
        scarceResourceTypes ≠ .SCARCE_RESOURCES) := by
  have hne : ¬ (offers.isEmpty = true) := by
    cases offers with
    | nil => exact absurd rfl hoffers
    | cons a l => simp
  constructor
  · rintro ⟨rt, hmem, hpos, hzero⟩
    have hconf : hasScarceConflict agentResources filter
        scarceResourceTypes = true := by
      unfold hasScarceConflict
      rw [List.any_eq_true]
      exact ⟨rt, hmem, by simp [hpos, hzero]⟩
    unfold matchHostFilter
    rw [if_neg hne, if_pos hconf]
  · intro hall
    have hconf : hasScarceConflict agentResources filter
        scarceResourceTypes = false := by
      unfold hasScarceConflict
      rw [List.any_eq_false]
      intro rt hmem
      simp only [Bool.and_eq_true, decide_eq_true_eq, not_and]
      exact fun hpos => hall rt hmem hpos
    unfold matchHostFilter
    rw [if_neg hne, if_neg (by simp [hconf])]
    rcases evaluateRes with _ | er
    · by_cases hs : hasSufficientResources offers filter <;> simp [hs]
    · cases er <;>
        first
          | decide
          | by_cases hs : hasSufficientResources offers filter <;> simp [hs]

/-- C7 witness inputs: the "GPU machines are exclusive" row of
`TestScarceResourcesConstraint` — a host possessing 5 GPUs with GPU declared
scarce, an offer satisfying the CPU/MEM/DISK minimum, and a filter demanding
no GPU. -/
def c7offer : Offer := ⟨"offer-7", ⟨1, 1, 1, 1⟩, ⟨0, 0, 0, 0⟩, 2⟩

def c7filter : HostFilter := ⟨⟨1, 1, 1, 0⟩, 0, false, none⟩

def c7agent : Resources := ⟨5, 5, 5, 5⟩

/-- C7 witness: the theorem evaluated on the concrete GPU-exclusive host:
the match answers SCARCE_RESOURCES even though the offered resources cover
the minimum. -/
theorem C7_witness :
    matchHostFilter [c7offer] c7filter none c7agent [.GPU] =
      .SCARCE_RESOURCES ∧
    hasSufficientResources [c7offer] c7filter = true := by
  constructor
  · refine (C7_scarce_resources [c7offer] c7filter none c7agent [.GPU]
      (List.cons_ne_nil _ _)).1 ⟨.GPU, List.mem_singleton.mpr rfl, ?_, rfl⟩
    show (0 : ℚ) < 5
    norm_num
  · show hasSufficientResources [c7offer] c7filter = true
    unfold hasSufficientResources Resources.containedIn aggregateResources
      aggregatePorts c7offer c7filter
    norm_num [Resources.add, Resources.zero]

/-- The rendering of a timestamp is never the empty string. -/
theorem formatTime_ne_empty (t : Nat) : formatTime t ≠ "" := by
  intro h
  have hlen := congrArg String.length h
  simp [formatTime, String.length_append] at hlen
  exact absurd hlen.1 (by decide)

/-- C8: whenever the new job state is terminal, the persisted completion
time is non-empty; it renders the last task update time when that is
non-zero and the current time when the tasks never ran. -/
theorem C8_completion_time (newState : JobState)
    (lastTaskUpdateTime now : Nat)
    (hterm : isPelotonJobStateTerminal newState = true) :
    jobCompletionTime newState lastTaskUpdateTime now ≠ "" ∧
    (lastTaskUpdateTime ≠ 0 →
      jobCompletionTime newState lastTaskUpdateTime now =
        formatTime lastTaskUpdateTime) ∧
    (lastTaskUpdateTime = 0 →
      jobCompletionTime newState lastTaskUpdateTime now = formatTime now) := by
  refine ⟨?_, fun hlast => ?_, fun hlast => ?_⟩
  · unfold jobCompletionTime
    rw [if_pos hterm]
    by_cases hlast : lastTaskUpdateTime ≠ 0
    · rw [if_pos hlast]
      exact formatTime_ne_empty _
    · rw [if_neg hlast]
      exact formatTime_ne_empty _
  · unfold jobCompletionTime
    rw [if_pos hterm, if_pos hlast]
  · unfold jobCompletionTime
    rw [if_pos hterm, if_neg (by simp [hlast])]

/-- C8 witness: the theorem evaluated on the KILLED job that never ran
(`TestJobCompletionTimeNotEmpty`): last task update time 0, current time
1700, completion time the rendering of the current time, hence
non-empty. -/
theorem C8_witness :
    jobCompletionTime .KILLED 0 1700 = formatTime 1700 ∧
    jobCompletionTime .KILLED 0 1700 ≠ "" :=
  ⟨(C8_completion_time .KILLED 0 1700 rfl).2.2 rfl,
    (C8_completion_time .KILLED 0 1700 rfl).1⟩

/-- C9: during recovery an active job is deleted from the active set exactly
when fetching its runtime gives not-found, or its runtime is present but
fetching its config gives not-found, or runtime and config are present with
a terminal runtime state and BATCH type; a store error other than not-found
never deletes, and a terminal service job is recovered, staying in the
active set. -/
theorem C9_recovery_delete (runtimeResult : Except StoreError RuntimeInfo)
    (configResult : Except StoreError JobConfig) :
    (recoverJobDecision runtimeResult configResult = .deleteFromActive ↔
      runtimeResult = .error .notFound ∨
      ((∃ rt, runtimeResult = .ok rt) ∧ configResult = .error .notFound) ∨
      (∃ rt cfg, runtimeResult = .ok rt ∧ configResult = .ok cfg ∧
        isPelotonJobStateTerminal rt.state = true ∧
        cfg.jobType = .BATCH)) ∧
    (runtimeResult = .error .otherError →
      recoverJobDecision runtimeResult configResult = .skip) ∧
    (∀ rt, runtimeResult = .ok rt → configResult = .error .otherError →
      recoverJobDecision runtimeResult configResult = .skip) ∧
    (∀ rt cfg, runtimeResult = .ok rt → configResult = .ok cfg →
      isPelotonJobStateTerminal rt.state = true → cfg.jobType = .SERVICE →
      recoverJobDecision runtimeResult configResult = .recover) := by
  rcases runtimeResult with e | rt
  · cases e <;>
      simp [recoverJobDecision]
  · rcases configResult with e | cfg
    · cases e <;>
        simp [recoverJobDecision]
    · by_cases hdel : isPelotonJobStateTerminal rt.state = true ∧
        cfg.jobType = .BATCH
      · refine ⟨?_, by simp, ?_, ?_⟩
        · simp only [recoverJobDecision, if_pos hdel]
          simp [hdel]
        · intro rt2 _ hcfg
          exact absurd hcfg (by simp)
        · intro rt2 cfg2 hrt2 hcfg2 hterm2 hsvc2
          rw [Except.ok.injEq] at hcfg2
          rw [hcfg2] at hdel
          rw [hsvc2] at hdel
          exact absurd hdel.2 (by decide)
      · refine ⟨?_, by simp, ?_, ?_⟩
        · simp only [recoverJobDecision, if_neg hdel]
          simp [hdel]
        · intro rt2 _ hcfg
          exact absurd hcfg (by simp)
        · intro rt2 cfg2 hrt2 hcfg2 hterm2 hsvc2
          simp [recoverJobDecision, hdel]

/-- C9 witness: the theorem evaluated on the terminal SERVICE job of
`TestRecoveryTerminalJobs`: runtime SUCCEEDED/SUCCEEDED and a SERVICE
config fetch both succeed, and the job is recovered, not deleted. -/
theorem C9_witness :
    recoverJobDecision (.ok ⟨.SUCCEEDED, .SUCCEEDED⟩)
      (.ok ⟨2, .SERVICE, false⟩) = .recover :=
  (C9_recovery_delete (.ok ⟨.SUCCEEDED, .SUCCEEDED⟩)
    (.ok ⟨2, .SERVICE, false⟩)).2.2.2 ⟨.SUCCEEDED, .SUCCEEDED⟩
    ⟨2, .SERVICE, false⟩ rfl rfl rfl rfl

/-- C10: `TryMatch` on a Placing host answers MISMATCH_STATUS whatever
offers remain, independently of the constraint evaluator, and leaves the
summary — in particular its status and host-offer id — untouched; on a
Ready host without offers it answers NO_OFFER, also unchanged. -/
theorem C10_try_match_status (s : HostSummary) (filter : HostFilter)
    (evaluateRes : Option EvaluateResult) (newOfferID : String) (now : Nat)
    (_hhint : filter.hintHostname ≠ some s.hostname) :
    (s.status = .PlacingHost →
      TryMatch s filter evaluateRes newOfferID now =
        (s, .MISMATCH_STATUS)) ∧
    (s.status = .PlacingHost → ∀ er2 : Option EvaluateResult,
      TryMatch s filter evaluateRes newOfferID now =
        TryMatch s filter er2 newOfferID now) ∧
    (s.status = .ReadyHost → s.unreservedOffers = [] →
      TryMatch s filter evaluateRes newOfferID now = (s, .NO_OFFER)) := by
  refine ⟨fun hst => ?_, fun hst er2 => ?_, fun hst hoffers => ?_⟩
  · unfold TryMatch
    rw [if_neg (by simp [hst])]
  · unfold TryMatch
    rw [if_neg (by simp [hst]), if_neg (by simp [hst])]
  · unfold TryMatch
    rw [if_pos (Or.inl hst)]
    have hmatch : matchHostFilter s.unreservedOffers filter evaluateRes
        s.agentResources s.scarceResourceTypes = .NO_OFFER := by
      unfold matchHostFilter
      rw [hoffers]
      rfl
    rw [hmatch]

/-- C10 witness inputs: a Placing host holding an offer (the
"mismatched-mismatch-status" row of `TestTryMatchSchedulingConstraint`). -/
def c10summary : HostSummary :=
  ⟨"host-10", .PlacingHost, [⟨"offer-10", ⟨1, 1, 1, 0⟩, ⟨1, 0, 0, 0⟩, 2⟩],
    "oid-10", 0, [], 60, 30, ⟨5, 5, 5, 0⟩, []⟩

def c10filter : HostFilter := ⟨⟨1, 1, 1, 0⟩, 0, false, none⟩

/-- C10 witness: the theorem evaluated on the concrete Placing host with an
offer: MISMATCH_STATUS, summary unchanged. -/
theorem C10_witness :
    TryMatch c10summary c10filter (some .EMatch) "fresh-id" 100 =
      (c10summary, .MISMATCH_STATUS) :=
  (C10_try_match_status c10summary c10filter (some .EMatch) "fresh-id" 100
    (by simp [c10filter])).1 rfl

end Peloton
